import Mathlib

/-
Verification development for the realtimestt-bridge plugin.

The control-plane commands are shallowly embedded from the JavaScript
sources under commands/ (stt-arm.cjs, stt-disarm.cjs, stt-once-improved.cjs).
File-system state is modelled as the optional content of the daemon pid
file; process spawning and signalling are modelled as explicit records in
the result of each step.  The continuous-listening daemon (stt_daemon.py)
is not part of the available sources; its trigger matcher and session
state machine are modelled from the specification text.
-/

/-- Whitespace test used for trimming: the JavaScript WhiteSpace and
LineTerminator set shared by String.prototype.trim and the Number()
conversion (tab through carriage return, space, no-break space, ogham
space mark, the Unicode Zs spaces, line and paragraph separators, narrow
no-break space, medium mathematical space, ideographic space, BOM). -/
def isWs (c : Char) : Bool :=
  c = ' ' || c = '\t' || c = '\n' || c = '\r' ||
  c.val = 11 || c.val = 12 || c.val = 160 || c.val = 5760 ||
  (8192 ≤ c.val && c.val ≤ 8202) || c.val = 8232 || c.val = 8233 ||
  c.val = 8239 || c.val = 8287 || c.val = 12288 || c.val = 65279

/-- Trim leading and trailing whitespace from a character list. -/
def trimChars (cs : List Char) : List Char :=
  ((cs.dropWhile isWs).reverse.dropWhile isWs).reverse

/-- Trim a string: model of JavaScript String.prototype.trim and of the
trimming step of the daemon normalization. -/
def trimStr (s : String) : String :=
  String.mk (trimChars s.data)

/-- ASCII case folding of a string: model of toLowerCase as used by the
commands (the configured trigger phrases are ASCII, so ASCII folding
coincides with the JavaScript behaviour on all inputs of interest). -/
def lowerStr (s : String) : String :=
  String.mk (s.data.map Char.toLower)

/-- Whether the string s starts with the string p, compared character by
character. -/
def strStarts (s p : String) : Bool :=
  s.data.take p.data.length == p.data

/-- Drop the first n characters of a string. -/
def strDrop (s : String) (n : Nat) : String :=
  String.mk (s.data.drop n)

/-- Model of the JavaScript expression v || d for an optional string v:
undefined, null and the empty string are falsy and select the default. -/
def jsOr (v : Option String) (d : String) : String :=
  match v with
  | none => d
  | some s => if s = "" then d else s

/-- Classification of a string under the JavaScript Number() conversion,
by the exact mathematical value of the numeric literal: nan for a string
that is not a numeric literal, intVal n for a literal whose value is
exactly the integer n, posFrac and negFrac for literals with a positive
or negative non-integral value, and inf for the signed Infinity forms and
for nothing else (decimal overflow to floating-point infinity is kept as
its exact integer value; see jsNumberInt for why that loses nothing). -/
inductive JsNum where
  | nan : JsNum
  | intVal (n : Int) : JsNum
  | posFrac : JsNum
  | negFrac : JsNum
  | inf (positive : Bool) : JsNum
deriving DecidableEq

/-- Value of one digit character in the given radix (0-9, a-z, A-Z as in
the JavaScript radix literals); none if the character is no digit of that
radix. -/
def radixVal (radix : Nat) (c : Char) : Option Nat :=
  let v :=
    if '0' ≤ c ∧ c ≤ '9' then some (c.toNat - 48)
    else if 'a' ≤ c ∧ c ≤ 'z' then some (c.toNat - 87)
    else if 'A' ≤ c ∧ c ≤ 'Z' then some (c.toNat - 55)
    else none
  match v with
  | some n => if n < radix then some n else none
  | none => none

/-- Value of a nonempty digit sequence in the given radix; none if the
sequence is empty or holds a character that is no digit of that radix. -/
def radixDigitsVal (radix : Nat) (cs : List Char) : Option Nat :=
  if cs ≠ [] ∧ cs.all (fun c => (radixVal radix c).isSome) then
    some (cs.foldl (fun n c => n * radix + ((radixVal radix c).getD 0)) 0)
  else none

/-- Parse the exponent written after the e marker of a decimal literal:
an optional sign and at least one decimal digit, consuming the whole
remainder. -/
def parseExp (cs : List Char) : Option Int :=
  match cs with
  | '+' :: ds => (radixDigitsVal 10 ds).map Int.ofNat
  | '-' :: ds => (radixDigitsVal 10 ds).map (fun n => -(Int.ofNat n : Int))
  | ds => (radixDigitsVal 10 ds).map Int.ofNat

/-- Classify an unsigned decimal literal (integer digits, optional point
and fraction digits, optional exponent) by its exact value: with mantissa
m read from all digits, f fraction digits and exponent e, the value is
m times ten to the e minus f, an integer exactly when that power is
nonnegative or m is divisible by the matching power of ten. -/
def decLitClass (neg : Bool) (cs : List Char) : JsNum :=
  let ip := cs.takeWhile Char.isDigit
  let rest1 := cs.dropWhile Char.isDigit
  let pr :=
    match rest1 with
    | '.' :: cs1 => (cs1.takeWhile Char.isDigit, cs1.dropWhile Char.isDigit)
    | _ => (([] : List Char), rest1)
  let fp := pr.1
  let rest2 := pr.2
  if ip = [] ∧ fp = [] then JsNum.nan
  else
    let eOpt : Option Int :=
      match rest2 with
      | [] => some 0
      | 'e' :: es => parseExp es
      | 'E' :: es => parseExp es
      | _ => none
    match eOpt with
    | none => JsNum.nan
    | some e =>
        let m := (ip ++ fp).foldl (fun n c => n * 10 + (c.toNat - 48)) 0
        let k : Int := e - Int.ofNat fp.length
        if m = 0 then JsNum.intVal 0
        else if 0 ≤ k then
          let v : Int := Int.ofNat (m * 10 ^ k.toNat)
          JsNum.intVal (if neg then -v else v)
        else if m % 10 ^ ((-k).toNat) = 0 then
          let v : Int := Int.ofNat (m / 10 ^ ((-k).toNat))
          JsNum.intVal (if neg then -v else v)
        else if neg then JsNum.negFrac else JsNum.posFrac

/-- Classify the part of a numeric literal after an optional sign: the
Infinity keyword or a decimal literal. -/
def signedTail (neg : Bool) (cs : List Char) : JsNum :=
  if cs = ("Infinity").data then JsNum.inf (!neg)
  else decLitClass neg cs

/-- Model of the JavaScript Number() conversion on the full string
grammar: after trimming, the empty string is 0, the 0x, 0o and 0b forms
are unsigned radix literals, and everything else is an optionally signed
Infinity or decimal literal; any string outside the grammar is NaN. -/
def jsNumLit (s : String) : JsNum :=
  match trimChars s.data with
  | [] => JsNum.intVal 0
  | '0' :: 'x' :: rest =>
      match radixDigitsVal 16 rest with
      | some n => JsNum.intVal (Int.ofNat n)
      | none => JsNum.nan
  | '0' :: 'X' :: rest =>
      match radixDigitsVal 16 rest with
      | some n => JsNum.intVal (Int.ofNat n)
      | none => JsNum.nan
  | '0' :: 'o' :: rest =>
      match radixDigitsVal 8 rest with
      | some n => JsNum.intVal (Int.ofNat n)
      | none => JsNum.nan
  | '0' :: 'O' :: rest =>
      match radixDigitsVal 8 rest with
      | some n => JsNum.intVal (Int.ofNat n)
      | none => JsNum.nan
  | '0' :: 'b' :: rest =>
      match radixDigitsVal 2 rest with
      | some n => JsNum.intVal (Int.ofNat n)
      | none => JsNum.nan
  | '0' :: 'B' :: rest =>
      match radixDigitsVal 2 rest with
      | some n => JsNum.intVal (Int.ofNat n)
      | none => JsNum.nan
  | '+' :: rest => signedTail false rest
  | '-' :: rest => signedTail true rest
  | rest => signedTail false rest

/-- Integer a SIGTERM can actually be directed at for the given string:
the source computes pid = Number(text) and calls process.kill(pid), and
process.kill throws ERR_INVALID_ARG_TYPE (caught and ignored by the
source) unless pid equals pid|0, that is unless the value is an integer
representable in 32 bits.  This returns some n exactly when the string is
a numeric literal whose value is the integer n with n in the 32-bit
window, and none when the conversion yields NaN, an infinity, an integer
outside the window (for an integer at least 2 to the 31, the float64
value, finite or overflowed to infinity, also fails the pid|0 check), or
a non-integral value.  The one abstraction: a non-integral literal
reaches process.kill as its float64 rounding, and for a positive literal
within half an ulp of an integer below 2 to the 31 that rounding is
integral and a signal is attempted; that class (JsNum.posFrac) is mapped
to none here and is excluded from the hypotheses of every theorem
below. -/
def jsNumberInt (s : String) : Option Int :=
  match jsNumLit s with
  | JsNum.intVal n =>
      if -2147483648 ≤ n ∧ n < 2147483648 then some n else none
  | _ => none

/-- Normalized pid-file content as the source computes it before the
Number() conversion: trimmed, with the empty string replaced by the
literal 0. -/
def pidTextOf (content : String) : String :=
  if trimStr content = "" then ("0") else trimStr content

/-- Input payload of the arm command (stt-arm.cjs): the JSON object read
from stdin, with the fields the command looks at. -/
structure ArmPayload where
  language : Option String
  triggerPhrase : Option String
deriving DecidableEq

/-- Environment passed to the spawned daemon process (stt-arm.cjs lines
35-40): STT_LANGUAGE, STT_TRIGGER_PREFIX and STT_STOP_WORD. -/
structure DaemonEnv where
  sttLanguage : String
  sttTriggerPhrase : String
  sttStopWord : String
deriving DecidableEq

/-- Record of the execFile call made by the arm command: command, script
argument, and the detached option (stt-arm.cjs lines 42-56). -/
structure SpawnRec where
  cmd : String
  args : List String
  env : DaemonEnv
  detached : Bool
deriving DecidableEq

/-- Structured JSON response written by the arm command. -/
structure ArmResponse where
  success : Bool
  message : String
  pid : Option Nat
  trigOut : Option String
deriving DecidableEq

/-- Complete observable outcome of one arm invocation: pid file content
afterwards, the spawn performed (if any), and the response object. -/
structure ArmOutcome where
  pidFileAfter : Option String
  spawned : Option SpawnRec
  response : ArmResponse
deriving DecidableEq

/-- Embedding of main in stt-arm.cjs.  pidFile is the content of
stt_daemon.pid if the file exists (none if absent); childPid is the pid
the operating system assigns to the spawned child.  When the pid file
exists the command answers success false and returns without touching
process or file state; otherwise it spawns the daemon detached, writes
the child pid in decimal to the pid file and answers success true. -/
def armStep (pidFile : Option String) (payload : ArmPayload) (childPid : Nat) :
    ArmOutcome :=
  match pidFile with
  | some content =>
      { pidFileAfter := some content
        spawned := none
        response :=
          { success := false
            message := "STT daemon already armed (pid file exists). Use /stt-disarm first if stuck."
            pid := none
            trigOut := none } }
  | none =>
      let trig := lowerStr (jsOr payload.triggerPhrase ("claude schreibe"))
      let env : DaemonEnv :=
        { sttLanguage := jsOr payload.language ("")
          sttTriggerPhrase := trig
          sttStopWord := "claude stop" }
      { pidFileAfter := some (Nat.repr childPid)
        spawned := some
          { cmd := "python3"
            args := ["stt_daemon.py"]
            env := env
            detached := true }
        response :=
          { success := true
            message := "RealtimeSTT daemon armed."
            pid := some childPid
            trigOut := some trig } }

/-- Structured JSON response written by the disarm command. -/
structure DisarmResponse where
  success : Bool
  message : String
deriving DecidableEq

/-- Complete observable outcome of one disarm invocation: pid file content
afterwards, the pid a SIGTERM was attempted at (none if no kill call was
made), and the response object. -/
structure DisarmOutcome where
  pidFileAfter : Option String
  signaled : Option Int
  response : DisarmResponse
deriving DecidableEq

/-- Embedding of main in stt-disarm.cjs.  pidFile is the content of
stt_daemon.pid if it exists.  killOk records whether the SIGTERM delivery
would succeed (the recorded process may already be dead); the source
wraps process.kill in try/catch and ignores the result, so no output
depends on killOk.  With no pid file the command reports
"nothing to disarm" with success false; with a pid file it converts the
trimmed content with Number(), calls process.kill for a positive value,
deletes the file and reports success true.  The signaled field records
the pid a SIGTERM actually goes out to: jsNumberInt already folds in the
pid validation process.kill performs, so a positive non-32-bit-integer
value, for which the kill call throws before any signal, yields none
here just as a non-positive value does. -/
def disarmStep (pidFile : Option String) (killOk : Bool) : DisarmOutcome :=
  match pidFile with
  | none =>
      { pidFileAfter := none
        signaled := none
        response :=
          { success := false
            message := "No STT daemon pid file found; nothing to disarm." } }
  | some content =>
      let pidText := trimStr content
      let pid := jsNumberInt (if pidText = "" then ("0") else pidText)
      let sig : Option Int :=
        match pid with
        | some n => if 0 < n then some n else none
        | none => none
      let _ := killOk
      { pidFileAfter := none
        signaled := sig
        response :=
          { success := true
            message := "RealtimeSTT daemon disarmed." } }

/-- Error response written by stt-once-improved.cjs when the provider is
rejected, together with the exit code. -/
structure OnceError where
  success : Bool
  errorType : String
  message : String
  retryable : Bool
deriving DecidableEq

/-- Embedding of the provider-selection part of main in
stt-once-improved.cjs (lines 104-121): the provider field defaults to
cloud when absent or empty, is case folded, and selects the local or
cloud script; any other value produces an invalid_provider error response
and exit code 1 before any process is spawned.  The ok value is the
script that would subsequently be spawned. -/
def onceProviderStep (provider : Option String) : Except (OnceError × Nat) String :=
  let p := lowerStr (jsOr provider ("cloud"))
  if p = "local" then
    Except.ok ("stt_once.py")
  else if p = "cloud" ∨ p = "openai" then
    Except.ok ("stt_cloud.py")
  else
    Except.error
      ({ success := false
         errorType := "invalid_provider"
         message := "Unknown provider \"" ++ p ++ "\". Use \"cloud\" (recommended) or \"local\"."
         retryable := false }, 1)

/-- Modelled from the spec: the daemon source (stt_daemon.py) is not among
the available files, so the trigger configuration is taken from the
specification data model: a start trigger phrase and a stop word, both
compared case-insensitively after trimming, loaded once at daemon start
and immutable. -/
structure TriggerConfig where
  startPhrase : String
  stopWord : String
deriving DecidableEq

/-- Modelled from the spec: the session state of the daemon, Idle or
Listening, starting in Idle. -/
inductive SessionState where
  | Idle : SessionState
  | Listening : SessionState
deriving DecidableEq

/-- Modelled from the spec: the journal events emitted by the session
state machine, one JSON object per line in the journal file. -/
inductive Event where
  | start (trigPhrase rawText commandText : String) : Event
  | text (rawText : String) : Event
  | stop : Event
deriving DecidableEq

/-- Modelled from the spec: the result of the trigger matcher on one
segment. -/
inductive MatchResult where
  | startMatch (rawText commandText : String) : MatchResult
  | stopMatch : MatchResult
  | contentMatch (rawText : String) : MatchResult
deriving DecidableEq

/-- Modelled from the spec: the trigger matcher.  The segment text is
normalized by trimming and case folding before comparison, the raw text
is preserved for the event.  In Idle, a segment whose normalized text
starts with the start phrase is a start match whose command text is the
raw text with the matched phrase and following separators stripped and
re-trimmed; everything else in Idle is plain content (a stop word has no
meaning while Idle).  In Listening, a segment whose normalized text
starts with the stop word is a stop match, and everything else is content
carrying the raw text unchanged (a second start phrase while Listening is
treated as content). -/
def matchSegment (cfg : TriggerConfig) (st : SessionState) (text : String) :
    MatchResult :=
  let norm := lowerStr (trimStr text)
  match st with
  | SessionState.Idle =>
      if strStarts norm cfg.startPhrase then
        MatchResult.startMatch text
          (trimStr (strDrop (trimStr text) cfg.startPhrase.data.length))
      else
        MatchResult.contentMatch text
  | SessionState.Listening =>
      if strStarts norm cfg.stopWord then
        MatchResult.stopMatch
      else
        MatchResult.contentMatch text

/-- Modelled from the spec: one transition of the session state machine,
returning the new state and the events appended to the journal for this
segment.  Idle plus a start match opens a session and emits a start
event; Idle plus anything else emits nothing; Listening plus a stop match
closes the session and emits a stop event; Listening plus content emits a
text event, except that an empty segment is skipped rather than producing
an empty text event.  A start match cannot arise in Listening (the
matcher treats it as content), and that branch emits nothing. -/
def stepSegment (cfg : TriggerConfig) (st : SessionState) (text : String) :
    SessionState × List Event :=
  match st with
  | SessionState.Idle =>
      match matchSegment cfg SessionState.Idle text with
      | MatchResult.startMatch raw cmd =>
          (SessionState.Listening, [Event.start cfg.startPhrase raw cmd])
      | _ => (SessionState.Idle, [])
  | SessionState.Listening =>
      match matchSegment cfg SessionState.Listening text with
      | MatchResult.stopMatch => (SessionState.Idle, [Event.stop])
      | MatchResult.contentMatch raw =>
          if raw = "" then (SessionState.Listening, [])
          else (SessionState.Listening, [Event.text raw])
      | MatchResult.startMatch _ _ => (SessionState.Listening, [])

/-- Modelled from the spec: the daemon pipeline processes segments
strictly sequentially, appending each segment's events to the journal
before the next segment is handled; the journal produced from a segment
sequence is the concatenation of the per-segment event lists. -/
def runSegments (cfg : TriggerConfig) (st : SessionState) :
    List String → List Event
  | [] => []
  | t :: rest =>
      let p := stepSegment cfg st t
      p.2 ++ runSegments cfg p.1 rest

/-- Whether an event is a start event. -/
def Event.isStart : Event → Bool
  | Event.start _ _ _ => true
  | _ => false

/-- Whether an event is a stop event. -/
def Event.isStop : Event → Bool
  | Event.stop => true
  | _ => false

/-- Number of sessions a state holds open: 0 in Idle, 1 in Listening. -/
def openBal : SessionState → Nat
  | SessionState.Idle => 0
  | SessionState.Listening => 1

/-- Each step either emits nothing and keeps the state, or emits exactly
one event with the matching state change. -/
theorem stepSegment_shape (cfg : TriggerConfig) (st : SessionState) (t : String) :
    (stepSegment cfg st t = (st, [])) ∨
    (∃ raw cmd, st = SessionState.Idle ∧
      stepSegment cfg st t =
        (SessionState.Listening, [Event.start cfg.startPhrase raw cmd])) ∨
    (∃ raw, st = SessionState.Listening ∧
      stepSegment cfg st t = (SessionState.Listening, [Event.text raw])) ∨
    (st = SessionState.Listening ∧
      stepSegment cfg st t = (SessionState.Idle, [Event.stop])) := by
  cases st with
  | Idle =>
      cases h : matchSegment cfg SessionState.Idle t with
      | startMatch raw cmd =>
          exact Or.inr (Or.inl ⟨raw, cmd, rfl, by simp [stepSegment, h]⟩)
      | stopMatch => exact Or.inl (by simp [stepSegment, h])
      | contentMatch raw => exact Or.inl (by simp [stepSegment, h])
  | Listening =>
      cases h : matchSegment cfg SessionState.Listening t with
      | startMatch raw cmd => exact Or.inl (by simp [stepSegment, h])
      | stopMatch => exact Or.inr (Or.inr (Or.inr ⟨rfl, by simp [stepSegment, h]⟩))
      | contentMatch raw =>
          by_cases hr : raw = ""
          · exact Or.inl (by simp [stepSegment, h, hr])
          · exact Or.inr (Or.inr (Or.inl ⟨raw, rfl, by simp [stepSegment, h, hr]⟩))

/-- Unfolding equation of runSegments on a nonempty segment list. -/
theorem runSegments_cons (cfg : TriggerConfig) (st : SessionState) (t : String)
    (rest : List String) :
    runSegments cfg st (t :: rest) =
      (stepSegment cfg st t).2 ++ runSegments cfg (stepSegment cfg st t).1 rest := rfl

/-- Balance invariant of the journal, generalized over the starting state:
on every prefix of the produced event list, the stop count is at most the
start count plus the number of sessions open at the start, and that sum
exceeds the stop count by at most one. -/
theorem runSegments_balance (cfg : TriggerConfig) (segs : List String) :
    ∀ (st : SessionState) (n : Nat),
      ((runSegments cfg st segs).take n).countP Event.isStop ≤
        ((runSegments cfg st segs).take n).countP Event.isStart + openBal st ∧
      ((runSegments cfg st segs).take n).countP Event.isStart + openBal st ≤
        ((runSegments cfg st segs).take n).countP Event.isStop + 1 := by
  induction segs with
  | nil =>
      intro st n
      cases st <;> simp [runSegments, openBal]
  | cons t rest ih =>
      intro st n
      rcases stepSegment_shape cfg st t with h | ⟨raw, cmd, hst, h⟩ | ⟨raw, hst, h⟩ | ⟨hst, h⟩
      · rw [runSegments_cons, h]
        simpa using ih st n
      · subst hst
        rw [runSegments_cons, h]
        cases n with
        | zero => simp [openBal]
        | succ m =>
            have hm := ih SessionState.Listening m
            simp [List.singleton_append, List.take_succ_cons, List.countP_cons,
              openBal, Event.isStart, Event.isStop] at hm ⊢
            omega
      · subst hst
        rw [runSegments_cons, h]
        cases n with
        | zero => simp [openBal]
        | succ m =>
            have hm := ih SessionState.Listening m
            simp [List.singleton_append, List.take_succ_cons, List.countP_cons,
              openBal, Event.isStart, Event.isStop] at hm ⊢
            omega
      · subst hst
        rw [runSegments_cons, h]
        cases n with
        | zero => simp [openBal]
        | succ m =>
            have hm := ih SessionState.Idle m
            simp [List.singleton_append, List.take_succ_cons, List.countP_cons,
              openBal, Event.isStart, Event.isStop] at hm ⊢
            omega

/-- C1 counterexample: the claim states that Disarm with no Handle file
returns success true; in the source (stt-disarm.cjs lines 10-17) the
"nothing to disarm" response carries success false. -/
theorem disarm_idle_counterexample :
    (disarmStep none true).response.success = false ∧
    (disarmStep none true).response.message =
      "No STT daemon pid file found; nothing to disarm." := ⟨rfl, rfl⟩

/-- C1 (amended): calling Disarm when no Daemon Handle file exists returns
a structured result with success false and the "nothing to disarm"
message, performs no process signaling and changes no file state; after
any Disarm call the Handle file is absent, so the second of two
consecutive Disarm calls returns exactly that result. -/
theorem disarm_idle_reports_nothing (st : Option String) (k₁ k₂ : Bool) :
    (disarmStep st k₁).pidFileAfter = none ∧
    disarmStep (disarmStep st k₁).pidFileAfter k₂ =
      { pidFileAfter := none
        signaled := none
        response :=
          { success := false
            message := "No STT daemon pid file found; nothing to disarm." } } := by
  cases st with
  | none => exact ⟨rfl, rfl⟩
  | some c => exact ⟨rfl, rfl⟩

/-- C2: whenever the Daemon Handle file exists (with any content), Arm
returns success false with the already-armed message, leaves the Handle
file content unchanged and spawns no process. -/
theorem arm_rejected_when_armed (c : String) (payload : ArmPayload) (cpid : Nat) :
    armStep (some c) payload cpid =
      { pidFileAfter := some c
        spawned := none
        response :=
          { success := false
            message := "STT daemon already armed (pid file exists). Use /stt-disarm first if stuck."
            pid := none
            trigOut := none } } := rfl

/-- C3: whenever the Daemon Handle file exists and its trimmed content
parses to a positive integer n, Disarm attempts a SIGTERM at n, deletes
the Handle file and returns success true; the outcome is the same whether
or not the signal delivery succeeds (killOk is universally quantified and
absent from the conclusion), so a stale handle for a dead process is
cleaned up identically. -/
theorem disarm_signals_and_cleans (c : String) (n : Int) (k : Bool)
    (hparse : jsNumberInt (if trimStr c = "" then ("0") else trimStr c) = some n)
    (hpos : 0 < n) :
    disarmStep (some c) k =
      { pidFileAfter := none
        signaled := some n
        response := { success := true, message := "RealtimeSTT daemon disarmed." } } := by
  simp [disarmStep, hparse, hpos]

/-- Witness for C3 at the concrete handle content 1234. -/
theorem disarm_signals_and_cleans_witness :
    jsNumberInt (if trimStr ("1234") = "" then ("0") else trimStr ("1234")) = some 1234 ∧
    (0 : Int) < 1234 ∧
    disarmStep (some ("1234")) true =
      { pidFileAfter := none
        signaled := some 1234
        response := { success := true, message := "RealtimeSTT daemon disarmed." } } :=
  ⟨by decide, by decide,
    disarm_signals_and_cleans ("1234") 1234 true (by decide) (by decide)⟩

/-- C4: for every Arm call with no Handle file present, the daemon is
spawned detached (python3 stt_daemon.py), the child pid is written in
decimal to the Handle file, and the response is success true carrying
that pid. -/
theorem arm_spawns_and_writes_pidfile (payload : ArmPayload) (cpid : Nat) :
    (armStep none payload cpid).pidFileAfter = some (Nat.repr cpid) ∧
    ((armStep none payload cpid).spawned).map SpawnRec.detached = some true ∧
    ((armStep none payload cpid).spawned).map SpawnRec.cmd = some ("python3") ∧
    ((armStep none payload cpid).spawned).map SpawnRec.args = some (["stt_daemon.py"]) ∧
    (armStep none payload cpid).response.success = true ∧
    (armStep none payload cpid).response.pid = some cpid :=
  ⟨rfl, rfl, rfl, rfl, rfl, rfl⟩

/-- C5: for every Arm payload, the stop word placed in the spawned daemon
environment is the fixed string claude stop; no payload field can change
it. -/
theorem arm_stop_word_fixed (payload : ArmPayload) (cpid : Nat) :
    ((armStep none payload cpid).spawned).map (fun r => r.env.sttStopWord) =
      some ("claude stop") := rfl

/-- C6 counterexample: with the supplied trigger phrase padded with
whitespace, the value placed in the daemon environment is only
case folded, not trimmed, so it differs from the trimmed case-folded form
the claim requires. -/
theorem arm_trig_untrimmed_counterexample :
    ((armStep none { language := none, triggerPhrase := some ("  CLAUDE Schreibe  ") } 7).spawned).map
        (fun r => r.env.sttTriggerPhrase) = some ("  claude schreibe  ") ∧
    ("  claude schreibe  ") ≠ lowerStr (trimStr ("  CLAUDE Schreibe  ")) :=
  ⟨rfl, by decide⟩

/-- C6 (amended): the start phrase placed in the daemon environment at arm
time is the case-folded (lower-cased) form of the caller-supplied trigger
phrase, with no trimming applied; an absent or empty phrase falls back to
the default claude schreibe. -/
theorem arm_trig_lowercased (s : String) (lang : Option String) (cpid : Nat)
    (hs : s ≠ "") :
    ((armStep none { language := lang, triggerPhrase := some s } cpid).spawned).map
      (fun r => r.env.sttTriggerPhrase) = some (lowerStr s) := by
  simp [armStep, jsOr, hs]

/-- Witness for C6 at a concrete phrase with surrounding whitespace and
upper-case letters. -/
theorem arm_trig_lowercased_witness :
    ("  CLAUDE Schreibe  ") ≠ ("") ∧
    ((armStep none { language := none, triggerPhrase := some ("  CLAUDE Schreibe  ") } 9).spawned).map
      (fun r => r.env.sttTriggerPhrase) = some (lowerStr ("  CLAUDE Schreibe  ")) :=
  ⟨by decide, arm_trig_lowercased ("  CLAUDE Schreibe  ") none 9 (by decide)⟩

/-- C7: for every configuration and segment sequence processed by the
session state machine starting Idle, and every prefix of the produced
journal, the number of start events minus the number of stop events is 0
or 1: stops never exceed starts and starts exceed stops by at most one,
so at most one session is open at any point. -/
theorem at_most_one_open_session (cfg : TriggerConfig) (segs : List String) (n : Nat) :
    ((runSegments cfg SessionState.Idle segs).take n).countP Event.isStop ≤
      ((runSegments cfg SessionState.Idle segs).take n).countP Event.isStart ∧
    ((runSegments cfg SessionState.Idle segs).take n).countP Event.isStart ≤
      ((runSegments cfg SessionState.Idle segs).take n).countP Event.isStop + 1 := by
  have h := runSegments_balance cfg segs SessionState.Idle n
  simpa [openBal] using h

/-- C8: with start phrase claude schreibe and the daemon Idle, the segment
CLAUDE schreibe Text über Quicksort emits exactly one start event whose
commandText is the input with the matched phrase and following separators
stripped and re-trimmed, and whose rawText is the unmodified input. -/
theorem start_event_strips_trigger :
    stepSegment { startPhrase := "claude schreibe", stopWord := "claude stop" }
      SessionState.Idle ("CLAUDE schreibe Text über Quicksort") =
    (SessionState.Listening,
      [Event.start ("claude schreibe") ("CLAUDE schreibe Text über Quicksort")
        ("Text über Quicksort")]) := by decide

/-- C9 counterexample: the claim restricts signaling to contents that
parse as positive decimal integers, but Number() also accepts the
hexadecimal form: the content 0x10 contains non-digit characters and so
is no positive decimal integer, yet the source computes pid 16 and
attempts a SIGTERM at it before deleting the file. -/
theorem disarm_hex_pid_counterexample :
    (("0x10").data.all Char.isDigit) = false ∧
    (disarmStep (some ("0x10")) true).signaled = some 16 ∧
    (disarmStep (some ("0x10")) true).response.success = true := by decide

/-- C9 (amended): if the Handle file exists but the Number() value of its
normalized content is not a positive 32-bit integer — the content is
empty or whitespace-only (value 0), not a numeric literal at all (NaN),
an integer that is zero, negative or at least 2 to the 31, a negative
non-integral literal, or an infinity — then Disarm attempts no signal,
still deletes the Handle file and returns success true. -/
theorem disarm_bad_pid_no_signal (c : String) (k : Bool)
    (h : jsNumLit (pidTextOf c) = JsNum.nan ∨
      (∃ n : Int, jsNumLit (pidTextOf c) = JsNum.intVal n ∧ n ≤ 0) ∨
      (∃ n : Int, jsNumLit (pidTextOf c) = JsNum.intVal n ∧ 2147483648 ≤ n) ∨
      jsNumLit (pidTextOf c) = JsNum.negFrac ∨
      (∃ b : Bool, jsNumLit (pidTextOf c) = JsNum.inf b)) :
    disarmStep (some c) k =
      { pidFileAfter := none
        signaled := none
        response := { success := true, message := "RealtimeSTT daemon disarmed." } } := by
  simp only [pidTextOf] at h
  have key : jsNumberInt (if trimStr c = "" then ("0") else trimStr c) = none ∨
      ∃ n : Int,
        jsNumberInt (if trimStr c = "" then ("0") else trimStr c) = some n ∧ n ≤ 0 := by
    rcases h with h | ⟨n, h, hn⟩ | ⟨n, h, hn⟩ | h | ⟨b, h⟩
    · exact Or.inl (by simp [jsNumberInt, h])
    · by_cases hw : (-2147483648 : Int) ≤ n ∧ n < 2147483648
      · exact Or.inr ⟨n, by simp [jsNumberInt, h, hw], hn⟩
      · exact Or.inl (by simp [jsNumberInt, h, hw])
    · have hw : ¬ ((-2147483648 : Int) ≤ n ∧ n < 2147483648) := by omega
      exact Or.inl (by simp [jsNumberInt, h, hw])
    · exact Or.inl (by simp [jsNumberInt, h])
    · exact Or.inl (by simp [jsNumberInt, h])
  rcases key with key | ⟨n, key, hn⟩
  · simp [disarmStep, key]
  · have hnp : ¬ (0 < n) := by omega
    simp [disarmStep, key, hnp]

/-- Witness for C9 at the concrete non-numeric handle content abc. -/
theorem disarm_bad_pid_no_signal_witness :
    (jsNumLit (pidTextOf ("abc")) = JsNum.nan ∨
      (∃ n : Int, jsNumLit (pidTextOf ("abc")) = JsNum.intVal n ∧ n ≤ 0) ∨
      (∃ n : Int, jsNumLit (pidTextOf ("abc")) = JsNum.intVal n ∧ 2147483648 ≤ n) ∨
      jsNumLit (pidTextOf ("abc")) = JsNum.negFrac ∨
      (∃ b : Bool, jsNumLit (pidTextOf ("abc")) = JsNum.inf b)) ∧
    disarmStep (some ("abc")) false =
      { pidFileAfter := none
        signaled := none
        response := { success := true, message := "RealtimeSTT daemon disarmed." } } :=
  ⟨Or.inl (by decide),
    disarm_bad_pid_no_signal ("abc") false (Or.inl (by decide))⟩

/-- C10 counterexample: the empty provider string is none of local, cloud
or openai after case folding, yet the command falls back to the cloud
script instead of rejecting it, because the JavaScript default applies to
every falsy provider value including the empty string. -/
theorem once_empty_provider_counterexample :
    lowerStr ("") ≠ ("local") ∧ lowerStr ("") ≠ ("cloud") ∧ lowerStr ("") ≠ ("openai") ∧
    onceProviderStep (some ("")) = Except.ok ("stt_cloud.py") :=
  ⟨by decide, by decide, by decide, rfl⟩

/-- C10 (amended): for every nonempty provider string whose case-folded
form is none of local, cloud or openai, the improved one-shot command
writes a structured result with success false and error type
invalid_provider and exits with status 1, selecting no script to spawn. -/
theorem once_invalid_provider_rejected (s : String) (hne : s ≠ "")
    (hl : lowerStr s ≠ ("local")) (hc : lowerStr s ≠ ("cloud"))
    (ho : lowerStr s ≠ ("openai")) :
    onceProviderStep (some s) =
      Except.error
        ({ success := false
           errorType := "invalid_provider"
           message := "Unknown provider \"" ++ lowerStr s ++ "\". Use \"cloud\" (recommended) or \"local\"."
           retryable := false }, 1) := by
  simp [onceProviderStep, jsOr, hne, hl, hc, ho]

/-- Witness for C10 at the concrete provider azure. -/
theorem once_invalid_provider_rejected_witness :
    (("azure") ≠ ("") ∧ lowerStr ("azure") ≠ ("local") ∧
      lowerStr ("azure") ≠ ("cloud") ∧ lowerStr ("azure") ≠ ("openai")) ∧
    onceProviderStep (some ("azure")) =
      Except.error
        ({ success := false
           errorType := "invalid_provider"
           message := "Unknown provider \"" ++ lowerStr ("azure") ++ "\". Use \"cloud\" (recommended) or \"local\"."
           retryable := false }, 1) :=
  ⟨⟨by decide, by decide, by decide, by decide⟩,
    once_invalid_provider_rejected ("azure") (by decide) (by decide) (by decide) (by decide)⟩
